import Mathlib

/-!
Shallow embedding of the client-side authentication core of a Next.js
boilerplate: the zustand auth store (`useAuthStore` with a `persist`
middleware writing to localStorage under the key "auth-storage" and a
direct token mirror under "auth_token"), the axios HTTP client with its
request and response interceptors (`src/lib/api/client.ts`), and the
auth mutation hooks `useLogin`, `useSignup`, `useLogout`
(`src/hooks/useAuth.ts`) that sit on top of the store and the
react-query cache.

The world state carries: the browser flag (`typeof window !== "undefined"`),
the in-memory store, the two localStorage keys (the bare token under
"auth_token" and the persist-middleware snapshot under "auth-storage"),
the last forced navigation (`window.location.href` assignment), the
react-query cache contents, and a counter of `queryClient.clear()` calls.
Network outcomes are passed in explicitly as `Except` values, so each
operation is a pure function of the world and the response it receives.
-/

/-- Identity record, from the `User` interface of the store module. -/
structure User where
  id : String
  email : String
  name : String
  deriving DecidableEq

/-- The in-memory zustand auth state: `user`, `token`, `isAuthenticated`. -/
structure AuthState where
  user : Option User
  token : Option String
  isAuthenticated : Bool
  deriving DecidableEq

/-- The store's initial value: `user: null, token: null, isAuthenticated: false`. -/
def initialAuthState : AuthState :=
  { user := none, token := none, isAuthenticated := false }

/-- Whole-client state: browser flag, in-memory store, the two durable
localStorage keys, forced navigation target, react-query cache keys, and a
count of `queryClient.clear()` invocations. -/
structure World where
  isBrowser : Bool
  store : AuthState
  tokenKey : Option String
  persisted : Option AuthState
  navigatedTo : Option String
  cache : List (List String)
  clearCount : Nat
  deriving DecidableEq

/-- A fresh client: all-absent store, empty storage, empty cache. -/
def initialWorld (b : Bool) : World :=
  { isBrowser := b, store := initialAuthState, tokenKey := none,
    persisted := none, navigatedTo := none, cache := [], clearCount := 0 }

/-- `setAuth(user, token)` of `useAuthStore`: in a browser context write the
token to localStorage under "auth_token", then set
`\x7b user, token, isAuthenticated: true \x7d`; the zustand `persist`
middleware mirrors the new partialized state to "auth-storage". -/
def setAuth (w : World) (u : User) (t : String) : World :=
  let s : AuthState := { user := some u, token := some t, isAuthenticated := true }
  if w.isBrowser then
    { w with tokenKey := some t, store := s, persisted := some s }
  else
    { w with store := s }

/-- `logout()` of `useAuthStore`: in a browser context remove "auth_token"
from localStorage, then set
`\x7b user: null, token: null, isAuthenticated: false \x7d`; the `persist`
middleware mirrors the new state to "auth-storage". -/
def logout (w : World) : World :=
  let s : AuthState := { user := none, token := none, isAuthenticated := false }
  if w.isBrowser then
    { w with tokenKey := none, store := s, persisted := some s }
  else
    { w with store := s }

/-- Rehydration of the store from the persisted "auth-storage" snapshot, as
the zustand `persist` middleware does at startup: the snapshot when present,
the initial state otherwise. -/
def rehydrate (persisted : Option AuthState) : AuthState :=
  persisted.getD initialAuthState

/-- An axios-style error: `error.response?.status` (absent on a transport
error that never produced a response) and a message. -/
structure ApiError where
  status : Option Nat
  message : String
  deriving DecidableEq

/-- The outgoing request configuration, reduced to the one field the request
interceptor touches: the Authorization header. -/
structure RequestConfig where
  authorization : Option String
  deriving DecidableEq

/-- The request interceptor of `client.ts`: when in a browser, read
`localStorage.getItem("auth_token")`; `if (token)` (JS truthiness, so an
empty string does not pass) set `Authorization: Bearer <token>`; otherwise,
and in a non-browser context, forward the config unchanged. Total function:
it never raises. -/
def requestInterceptor (w : World) (cfg : RequestConfig) : RequestConfig :=
  if w.isBrowser then
    match w.tokenKey with
    | some t =>
        if t = "" then cfg
        else { cfg with authorization := some ("Bearer " ++ t) }
    | none => cfg
  else cfg

/-- The error branch of the response interceptor of `client.ts`: when
`error.response?.status === 401 && isBrowser`, remove "auth_token" from
localStorage and assign `window.location.href = "/login"`; in every case
return `Promise.reject(error)` with the original error. -/
def responseOnError (w : World) (e : ApiError) : World × ApiError :=
  if e.status = some 401 ∧ w.isBrowser = true then
    ({ w with tokenKey := none, navigatedTo := some "/login" }, e)
  else
    (w, e)

/-- One call through the shared axios instance `api`: a successful raw
response passes through unchanged; a failed one goes through the response
interceptor's error branch and is re-raised. -/
def apiCall {α : Type} (w : World) (raw : Except ApiError α) :
    World × Except ApiError α :=
  match raw with
  | Except.ok a => (w, Except.ok a)
  | Except.error e =>
      let p := responseOnError w e
      (p.1, Except.error p.2)

/-- The body of a login/signup success response: `\x7b user, token \x7d`. -/
structure AuthResponse where
  user : User
  token : String
  deriving DecidableEq

/-- `queryClient.clear()`: drop every cache entry and count the call. -/
def queryClientClear (w : World) : World :=
  { w with cache := [], clearCount := w.clearCount + 1 }

/-- One execution of the `useLogin` mutation: POST `/auth/login` through the
gateway; `onSuccess` calls `setAuth(data.user, data.token)`; the error case
has no handler, the rejection reaches the caller. -/
def useLogin (w : World) (raw : Except ApiError AuthResponse) :
    World × Except ApiError AuthResponse :=
  let p := apiCall w raw
  match p.2 with
  | Except.ok d => (setAuth p.1 d.user d.token, Except.ok d)
  | Except.error e => (p.1, Except.error e)

/-- One execution of the `useSignup` mutation: POST `/auth/signup` through
the gateway; `onSuccess` calls `setAuth(data.user, data.token)`; the error
case has no handler, the rejection reaches the caller. -/
def useSignup (w : World) (raw : Except ApiError AuthResponse) :
    World × Except ApiError AuthResponse :=
  let p := apiCall w raw
  match p.2 with
  | Except.ok d => (setAuth p.1 d.user d.token, Except.ok d)
  | Except.error e => (p.1, Except.error e)

/-- One execution of the `useLogout` mutation: POST `/auth/logout` through
the gateway; `onSuccess` and `onError` both run `logout()` then
`queryClient.clear()`; the network outcome itself is still the mutation's
result. -/
def useLogout (w : World) (raw : Except ApiError Unit) :
    World × Except ApiError Unit :=
  let p := apiCall w raw
  (queryClientClear (logout p.1), p.2)

/-- A read of the durable Credential Store for the token key, as the code
performs it: `localStorage.getItem("auth_token")` guarded by the browser
check, with an unavailable storage read as absent. -/
def readToken (w : World) : Option String :=
  if w.isBrowser then w.tokenKey else none

/-- The operations that mutate the session store, for sequences. -/
inductive AuthOp where
  | doSetAuth (u : User) (t : String)
  | doLogout
  deriving DecidableEq

/-- Apply one store operation to the world. -/
def applyOp (w : World) : AuthOp → World
  | AuthOp.doSetAuth u t => setAuth w u t
  | AuthOp.doLogout => logout w

/-- Apply a sequence of store operations, left to right. -/
def applyOps (w : World) (ops : List AuthOp) : World :=
  ops.foldl applyOp w

/-- The spec's session-state invariant: `isAuthenticated` is true iff both
`user` and `token` are present. -/
def storeInvariant (s : AuthState) : Prop :=
  s.isAuthenticated = true ↔ (s.user ≠ none ∧ s.token ≠ none)

instance (s : AuthState) : Decidable (storeInvariant s) := by
  unfold storeInvariant
  infer_instance

/-! ## Basic lemmas about the store operations -/

/-- The store field after `setAuth` is the fully-authenticated state. -/
theorem setAuth_store (w : World) (u : User) (t : String) :
    (setAuth w u t).store =
      { user := some u, token := some t, isAuthenticated := true } := by
  unfold setAuth
  split <;> rfl

/-- The store field after `logout` is the all-absent state. -/
theorem logout_store (w : World) :
    (logout w).store = initialAuthState := by
  unfold logout initialAuthState
  split <;> rfl

/-- `logout` leaves the browser flag unchanged. -/
theorem logout_isBrowser (w : World) : (logout w).isBrowser = w.isBrowser := by
  unfold logout
  split <;> rfl

/-- `setAuth` leaves the browser flag unchanged. -/
theorem setAuth_isBrowser (w : World) (u : User) (t : String) :
    (setAuth w u t).isBrowser = w.isBrowser := by
  unfold setAuth
  split <;> rfl

/-- `setAuth` does not touch the react-query cache or the clear counter. -/
theorem setAuth_cache (w : World) (u : User) (t : String) :
    (setAuth w u t).cache = w.cache ∧ (setAuth w u t).clearCount = w.clearCount := by
  unfold setAuth
  split <;> exact ⟨rfl, rfl⟩

/-- The initial store satisfies the invariant. -/
theorem initial_storeInvariant : storeInvariant initialAuthState := by
  simp [storeInvariant, initialAuthState]

/-- Each store operation leaves the store satisfying the invariant,
from any starting world. -/
theorem applyOp_invariant (w : World) (op : AuthOp) :
    storeInvariant (applyOp w op).store := by
  cases op with
  | doSetAuth u t => simp [applyOp, setAuth_store, storeInvariant]
  | doLogout => simp [applyOp, logout_store, storeInvariant, initialAuthState]

/-- The invariant is preserved by any sequence of store operations. -/
theorem applyOps_invariant (ops : List AuthOp) :
    ∀ w : World, storeInvariant w.store → storeInvariant (applyOps w ops).store := by
  induction ops with
  | nil => intro w h; exact h
  | cons op rest ih =>
      intro w _
      exact ih (applyOp w op) (applyOp_invariant w op)

/-- C2: starting from the initial all-absent state, after every sequence of
session-store operations (`setAuth` / `logout`), `isAuthenticated` is true
iff both `user` and `token` are present. (It holds with no restriction on
the `setAuth` arguments, so in particular for fully-populated users and
non-empty tokens.) -/
theorem c2_invariant_sequences (b : Bool) (ops : List AuthOp) :
    storeInvariant (applyOps (initialWorld b) ops).store :=
  applyOps_invariant ops (initialWorld b) initial_storeInvariant

/-- C5: one run of the `useLogout` mutation, whatever the network outcome,
calls the store's `logout()` and clears the react-query cache: the end state
has the all-absent store, an empty cache, the durable token key removed in a
browser context, and the network outcome is still delivered to the caller. -/
theorem c5_logout_always_local (w : World) (raw : Except ApiError Unit) :
    (useLogout w raw).1.store = initialAuthState ∧
    (useLogout w raw).1.cache = [] ∧
    (useLogout w raw).1.tokenKey = (if w.isBrowser then none else w.tokenKey) ∧
    (useLogout w raw).2 = raw := by
  cases raw with
  | ok a =>
      simp only [useLogout, apiCall, queryClientClear, logout, initialAuthState]
      cases hb : w.isBrowser <;> simp [hb]
  | error e =>
      simp only [useLogout, apiCall, queryClientClear, logout, responseOnError]
      by_cases h401 : e.status = some 401 <;> cases hb : w.isBrowser <;>
        simp [h401, hb, initialAuthState]

/-- C6: after `setAuth(u, t)` with a non-empty token in a browser context,
the store reads `user = u`, `token = t`, `isAuthenticated = true`, and the
durable "auth_token" key holds `t`. -/
theorem c6_setAuth_effect (w : World) (u : User) (t : String)
    (_ht : t ≠ "") (hb : w.isBrowser = true) :
    (setAuth w u t).store.user = some u ∧
    (setAuth w u t).store.token = some t ∧
    (setAuth w u t).store.isAuthenticated = true ∧
    (setAuth w u t).tokenKey = some t := by
  simp [setAuth, hb]

/-- A concrete identity record used for concrete runs. -/
def u0 : User := { id := "1", email := "a@b.com", name := "A" }

/-- A fresh browser-context client. -/
def wBrowser : World := initialWorld true

theorem c6_setAuth_effect_witness :
    ("xyz" : String) ≠ "" ∧ wBrowser.isBrowser = true ∧
    ((setAuth wBrowser u0 "xyz").store.user = some u0 ∧
     (setAuth wBrowser u0 "xyz").store.token = some "xyz" ∧
     (setAuth wBrowser u0 "xyz").store.isAuthenticated = true ∧
     (setAuth wBrowser u0 "xyz").tokenKey = some "xyz") :=
  ⟨by decide, rfl, c6_setAuth_effect wBrowser u0 "xyz" (by decide) rfl⟩

/-- C7: the store's `logout()` is idempotent on the whole client state
(in-memory fields, both durable keys, navigation, cache) and afterwards a
read of the durable Credential Store for the token key returns absent. -/
theorem c7_logout_idempotent (w : World) :
    logout (logout w) = logout w ∧ readToken (logout w) = none := by
  cases hb : w.isBrowser <;> simp [logout, readToken, hb]

/-- C8: the request interceptor attaches `Bearer <token>` when a (truthy)
token is stored in a browser context, forwards the request unauthenticated
when no token is stored, and in a non-browser context forwards it
unauthenticated; being a total function, it never raises. -/
theorem c8_request_interceptor (w : World) (cfg : RequestConfig) :
    (∀ t : String, w.isBrowser = true → w.tokenKey = some t → t ≠ "" →
      requestInterceptor w cfg = { cfg with authorization := some ("Bearer " ++ t) }) ∧
    (w.isBrowser = true → w.tokenKey = none → requestInterceptor w cfg = cfg) ∧
    (w.isBrowser = false → requestInterceptor w cfg = cfg) := by
  refine ⟨?_, ?_, ?_⟩
  · intro t hb hk ht
    simp [requestInterceptor, hb, hk, ht]
  · intro hb hk
    simp [requestInterceptor, hb, hk]
  · intro hb
    simp [requestInterceptor, hb]

/-- A browser client holding the token "xyz". -/
def wTok : World := { initialWorld true with tokenKey := some "xyz" }

/-- A server-rendering (non-browser) client. -/
def wServer : World := initialWorld false

/-- A request configuration without an Authorization header. -/
def cfg0 : RequestConfig := { authorization := none }

theorem c8_request_interceptor_witness :
    (wTok.isBrowser = true ∧ wTok.tokenKey = some "xyz" ∧ ("xyz" : String) ≠ "" ∧
      requestInterceptor wTok cfg0 = { cfg0 with authorization := some ("Bearer " ++ "xyz") }) ∧
    (wBrowser.isBrowser = true ∧ wBrowser.tokenKey = none ∧
      requestInterceptor wBrowser cfg0 = cfg0) ∧
    (wServer.isBrowser = false ∧ requestInterceptor wServer cfg0 = cfg0) :=
  ⟨⟨rfl, rfl, by decide, (c8_request_interceptor wTok cfg0).1 "xyz" rfl rfl (by decide)⟩,
   ⟨rfl, rfl, (c8_request_interceptor wBrowser cfg0).2.1 rfl rfl⟩,
   ⟨rfl, (c8_request_interceptor wServer cfg0).2.2 rfl⟩⟩

/-- C9: a failed login or signup run (transport error or any error status)
leaves the in-memory Session State exactly as it was and delivers the
original error to the caller; the model performs the single network call it
is given, so no retry occurs. -/
theorem c9_failed_auth_ops (w : World) (e : ApiError) :
    (useLogin w (Except.error e)).1.store = w.store ∧
    (useLogin w (Except.error e)).2 = Except.error e ∧
    (useSignup w (Except.error e)).1.store = w.store ∧
    (useSignup w (Except.error e)).2 = Except.error e := by
  simp only [useLogin, useSignup, apiCall, responseOnError]
  by_cases h401 : e.status = some 401 <;> cases hb : w.isBrowser <;> simp [h401, hb]

/-- C10: the forced-logout path removes only the "auth_token" key: the
persisted "auth-storage" snapshot survives a 401 unchanged, so rehydrating
from durable storage afterwards still yields an authenticated-looking
session. -/
theorem c10_forced_logout_frame (α : Type) (w : World) (e : ApiError) (s : AuthState)
    (hb : w.isBrowser = true) (h401 : e.status = some 401)
    (hp : w.persisted = some s) (ha : s.isAuthenticated = true) :
    (apiCall w (Except.error e : Except ApiError α)).1.persisted = some s ∧
    (apiCall w (Except.error e : Except ApiError α)).1.tokenKey = none ∧
    (rehydrate (apiCall w (Except.error e : Except ApiError α)).1.persisted).isAuthenticated
      = true := by
  simp [apiCall, responseOnError, h401, hb, hp, rehydrate, ha]

/-- An authenticated in-memory state holding the token "abc". -/
def sAuth : AuthState := { user := some u0, token := some "abc", isAuthenticated := true }

/-- An authenticated browser client: token "abc" in memory and in durable
storage, the matching persisted snapshot, and a populated query cache. -/
def wAuth : World :=
  { isBrowser := true, store := sAuth, tokenKey := some "abc",
    persisted := some sAuth, navigatedTo := none,
    cache := [["users"], ["users", "42", "posts"]], clearCount := 0 }

/-- A 401 response error. -/
def err401 : ApiError := { status := some 401, message := "Unauthorized" }

theorem c10_forced_logout_frame_witness :
    (wAuth.isBrowser = true ∧ err401.status = some 401 ∧
     wAuth.persisted = some sAuth ∧ sAuth.isAuthenticated = true) ∧
    ((apiCall wAuth (Except.error err401 : Except ApiError Unit)).1.persisted = some sAuth ∧
     (apiCall wAuth (Except.error err401 : Except ApiError Unit)).1.tokenKey = none ∧
     (rehydrate (apiCall wAuth (Except.error err401 : Except ApiError Unit)).1.persisted).isAuthenticated = true) :=
  ⟨⟨rfl, rfl, rfl, rfl⟩, c10_forced_logout_frame Unit wAuth err401 sAuth rfl rfl rfl rfl⟩

/-- C1 counterexample: at the concrete authenticated browser client `wAuth`
receiving a 401, the response interceptor clears the durable token, issues
the navigation and re-raises the error, but the in-memory Session State is
not touched: its `isAuthenticated` stays `true`, so the claim's conjunct
`isAuthenticated == false` fails. -/
theorem c1_counterexample :
    ¬ ((apiCall wAuth (Except.error err401 : Except ApiError Unit)).1.tokenKey = none ∧
       (apiCall wAuth (Except.error err401 : Except ApiError Unit)).1.store.isAuthenticated
         = false ∧
       (apiCall wAuth (Except.error err401 : Except ApiError Unit)).1.navigatedTo
         = some "/login" ∧
       (apiCall wAuth (Except.error err401 : Except ApiError Unit)).2
         = Except.error err401) := by
  intro h
  exact absurd h.2.1 (by decide)

/-- C1 amended: on any 401 received in a browser context, the response
interceptor clears the "auth_token" key from durable storage, issues a hard
navigation to "/login", and re-raises the original error to the caller; it
leaves the in-memory Session State unchanged (in particular it does not set
`isAuthenticated` to false). -/
theorem c1_amended_forced_logout (α : Type) (w : World) (e : ApiError)
    (hb : w.isBrowser = true) (h401 : e.status = some 401) :
    (apiCall w (Except.error e : Except ApiError α)).1.tokenKey = none ∧
    (apiCall w (Except.error e : Except ApiError α)).1.navigatedTo = some "/login" ∧
    (apiCall w (Except.error e : Except ApiError α)).1.store = w.store ∧
    (apiCall w (Except.error e : Except ApiError α)).2 = Except.error e := by
  simp [apiCall, responseOnError, h401, hb]

theorem c1_amended_forced_logout_witness :
    (wAuth.isBrowser = true ∧ err401.status = some 401) ∧
    ((apiCall wAuth (Except.error err401 : Except ApiError Unit)).1.tokenKey = none ∧
     (apiCall wAuth (Except.error err401 : Except ApiError Unit)).1.navigatedTo
       = some "/login" ∧
     (apiCall wAuth (Except.error err401 : Except ApiError Unit)).1.store = wAuth.store ∧
     (apiCall wAuth (Except.error err401 : Except ApiError Unit)).2 = Except.error err401) :=
  ⟨⟨rfl, rfl⟩, c1_amended_forced_logout Unit wAuth err401 rfl rfl⟩

/-- The success body returned by the mock server in the concrete runs. -/
def resp0 : AuthResponse := { user := u0, token := "xyz" }

/-- C3 counterexample: a successful login run from the populated client
`wAuth` does set the store through `setAuth`, but the react-query cache is
not cleared — both entries survive — so the claim's cache-clearing conjunct
fails. -/
theorem c3_counterexample :
    (useLogin wAuth (Except.ok resp0)).1.store =
      { user := some u0, token := some "xyz", isAuthenticated := true } ∧
    ¬ ((useLogin wAuth (Except.ok resp0)).1.cache = []) := by
  exact ⟨rfl, by decide⟩

/-- C3 amended: on a successful login or signup, the resulting client state
is exactly `setAuth` applied with the returned identity and token, the
outcome is delivered to the caller, and the Server-Data Cache is NOT
cleared: the cache contents and the clear counter are unchanged. -/
theorem c3_amended_success_no_cache_clear (w : World) (d : AuthResponse) :
    (useLogin w (Except.ok d)).1 = setAuth w d.user d.token ∧
    (useLogin w (Except.ok d)).1.cache = w.cache ∧
    (useLogin w (Except.ok d)).1.clearCount = w.clearCount ∧
    (useLogin w (Except.ok d)).2 = Except.ok d ∧
    (useSignup w (Except.ok d)).1 = setAuth w d.user d.token ∧
    (useSignup w (Except.ok d)).1.cache = w.cache ∧
    (useSignup w (Except.ok d)).1.clearCount = w.clearCount ∧
    (useSignup w (Except.ok d)).2 = Except.ok d :=
  ⟨rfl, (setAuth_cache w d.user d.token).1, (setAuth_cache w d.user d.token).2, rfl,
   rfl, (setAuth_cache w d.user d.token).1, (setAuth_cache w d.user d.token).2, rfl⟩

/-- C4 counterexample: at the concrete authenticated browser client `wAuth`
(clear counter 0), a gateway call answered with 401 triggers the forced
logout path but performs zero `queryClient.clear()` calls, not the one the
claim requires. -/
theorem c4_counterexample :
    (apiCall wAuth (Except.error err401 : Except ApiError Unit)).1.clearCount = 0 ∧
    ¬ ((apiCall wAuth (Except.error err401 : Except ApiError Unit)).1.clearCount
        = wAuth.clearCount + 1) := by
  exact ⟨rfl, by decide⟩

/-- C4 amended: `queryClient.clear()` runs exactly once per `useLogout`
execution — whether the network logout call succeeds or fails — while the
Gateway's 401 forced-logout path never invokes it. -/
theorem c4_amended_clear_counts :
    (∀ (w : World) (raw : Except ApiError Unit),
      (useLogout w raw).1.clearCount = w.clearCount + 1) ∧
    (∀ (α : Type) (w : World) (e : ApiError),
      (apiCall w (Except.error e : Except ApiError α)).1.clearCount = w.clearCount) := by
  constructor
  · intro w raw
    cases raw with
    | ok a =>
        simp only [useLogout, apiCall, queryClientClear, logout]
        cases hb : w.isBrowser <;> simp [hb]
    | error e =>
        simp only [useLogout, apiCall, queryClientClear, logout, responseOnError]
        by_cases h401 : e.status = some 401 <;> cases hb : w.isBrowser <;> simp [h401, hb]
  · intro α w e
    simp only [apiCall, responseOnError]
    by_cases h401 : e.status = some 401 <;> cases hb : w.isBrowser <;> simp [h401, hb]
